import Mathlib

/-!
Shallow embedding of the cryptocurrency trading dashboard: the database rows
(coins, user balances, transactions, orders, from the SQL migration) and the
form handlers of the Admin, Assets, Market and Trade pages. Numbers are
modelled as rationals; a text input field is modelled as an Option value
(none is the empty field, matching JavaScript falsiness of the empty string);
the database is a State record and a Supabase insert appends a row while an
update maps over the rows matching the filter.
-/

namespace CryptoDash

/-- Transaction type column of the transactions table. -/
inductive TxType where
  | deposit
  | withdrawal
  | buy
  | sell
deriving DecidableEq, Repr

/-- Transaction status column of the transactions table. -/
inductive TxStatus where
  | pending
  | completed
  | cancelled
  | rejected
deriving DecidableEq, Repr

/-- Order type column of the orders table: market or limit. -/
inductive OrderKind where
  | market
  | limit
deriving DecidableEq, Repr

/-- Order side column of the orders table. -/
inductive Side where
  | buy
  | sell
deriving DecidableEq, Repr

/-- Order status column of the orders table; opn models the open status and
partFilled the partial status (both renamed because of Lean keywords). -/
inductive OrderStatus where
  | opn
  | filled
  | cancelled
  | partFilled
deriving DecidableEq, Repr

/-- Row of the coins table (columns used by the pages under proof). -/
structure Coin where
  id : Nat
  symbol : String
  name : String
  price : ℚ
  isActive : Bool
deriving DecidableEq, Repr

/-- Row of the user_balances table: balance is the available balance and
lockedBalance the locked balance. -/
structure BalanceRow where
  userId : Nat
  coinId : Nat
  balance : ℚ
  lockedBalance : ℚ
deriving DecidableEq, Repr

/-- Row of the transactions table (columns used by the pages under proof). -/
structure Txn where
  id : Nat
  userId : Nat
  coinId : Nat
  type : TxType
  amount : ℚ
  status : TxStatus
  walletAddress : Option String
  adminApprovedBy : Option Nat
  adminApprovedAt : Option Nat
deriving DecidableEq, Repr

/-- Row of the orders table. -/
structure OrderRow where
  userId : Nat
  baseCoinId : Nat
  quoteCoinId : Nat
  type : OrderKind
  side : Side
  amount : ℚ
  price : Option ℚ
  filledAmount : ℚ
  status : OrderStatus
deriving DecidableEq, Repr

/-- The database state: the four tables the handlers read and write. -/
structure State where
  coins : List Coin
  balances : List BalanceRow
  transactions : List Txn
  orders : List OrderRow
deriving DecidableEq, Repr

/-- The fixed walletAddresses map of the Assets page, keyed by the label. -/
def walletAddresses (coin : String) : Option String :=
  if coin = "BTC" then some ("1LyZHu2xzqYyzLesS7UYecXUTW6AGngBFR")
  else if coin = "ETH" then some ("0x1016a1ff1907e77afa6f4889f8796b4c3237252d")
  else if coin = "USDT (ERC20)" then some ("0x1016a1ff1907e77afa6f4889f8796b4c3237252d")
  else if coin = "USDT (TRC20)" then some ("TBdEXqVLqdrdD2mtPGysRQRQj53PEMsT1o")
  else none

/-- Splits a character list at every occurrence of sep, as the JavaScript
string split method does. -/
def splitOnCharList (sep : Char) : List Char → List (List Char)
  | [] => [[]]
  | c :: cs =>
    let rest := splitOnCharList sep cs
    if c = sep then [] :: rest
    else
      match rest with
      | [] => [[c]]
      | r :: rs => (c :: r) :: rs

/-- Models selectedPair.split with the slash separator from the Trade page. -/
def splitSlash (s : String) : List String :=
  (splitOnCharList '/' s.data).map (fun l => String.mk l)

/-- The handleDeposit handler of the Assets page: guards the empty amount
field, looks the coin up by symbol, and inserts a pending deposit transaction
with the fixed deposit address; it never reads or writes user_balances.
The nextTxId argument models the database generated row id. -/
def handleDeposit (st : State) (userId : Nat) (depositAmount : Option ℚ)
    (coinSymbol : String) (nextTxId : Nat) : Except String State :=
  match depositAmount with
  | none => Except.error ("Please enter deposit amount")
  | some amt =>
    match st.coins.find? (fun c => c.symbol == coinSymbol) with
    | none => Except.error ("Coin not found")
    | some coin =>
      Except.ok { st with transactions := st.transactions ++ [{
        id := nextTxId, userId := userId, coinId := coin.id,
        type := TxType.deposit, amount := amt, status := TxStatus.pending,
        walletAddress := walletAddresses coinSymbol,
        adminApprovedBy := none, adminApprovedAt := none }] }

/-- The handleWithdraw handler of the Assets page: guards the empty amount
and address fields, looks the coin up by symbol, and inserts a pending
withdrawal transaction with the entered address; it never reads or writes
user_balances (no available balance check, no locking). -/
def handleWithdraw (st : State) (userId : Nat) (withdrawAmount : Option ℚ)
    (withdrawAddress : String) (coinSymbol : String) (nextTxId : Nat) :
    Except String State :=
  if withdrawAmount = none ∨ withdrawAddress = "" then
    Except.error ("Please enter withdrawal amount and address")
  else
    match withdrawAmount with
    | none => Except.error ("Please enter withdrawal amount and address")
    | some amt =>
      match st.coins.find? (fun c => c.symbol == coinSymbol) with
      | none => Except.error ("Coin not found")
      | some coin =>
        Except.ok { st with transactions := st.transactions ++ [{
          id := nextTxId, userId := userId, coinId := coin.id,
          type := TxType.withdrawal, amount := amt, status := TxStatus.pending,
          walletAddress := some withdrawAddress,
          adminApprovedBy := none, adminApprovedAt := none }] }

/-- The approveTransaction handler of the Admin page: an unconditional update
of the transactions rows whose id matches, setting the status to completed or
rejected and recording the approving admin and the time; there is no check
that the transaction exists or is still pending, and user_balances is never
touched. The now argument models the current time. -/
def approveTransaction (st : State) (adminId : Nat) (transactionId : Nat)
    (approve : Bool) (now : Nat) : State :=
  { st with transactions := st.transactions.map (fun t =>
      if t.id = transactionId then
        { t with
          status := if approve then TxStatus.completed else TxStatus.rejected,
          adminApprovedBy := some adminId,
          adminApprovedAt := some now }
      else t) }

/-- The updateMoonPriceByPercentage handler of the Admin page: guards the
empty percentage field, fetches the current MOON price, computes the new
price as price times one plus the percentage over one hundred, and updates
the MOON row of the coins table. -/
def updateMoonPriceByPercentage (st : State) (priceChange : Option ℚ) :
    Except String State :=
  match priceChange with
  | none => Except.error ("Please enter a percentage change")
  | some pct =>
    match st.coins.find? (fun c => c.symbol == "MOON") with
    | none => Except.error ("Could not fetch current price")
    | some current =>
      let changePercent := pct / 100
      let newPrice := current.price * (1 + changePercent)
      Except.ok { st with coins := st.coins.map (fun c =>
        if c.symbol = "MOON" then { c with price := newPrice } else c) }

/-- The handleTrade handler of the Trade page: guards the empty amount field
and, for a limit order, the empty price field; splits the selected pair at
the slash; resolves both symbols against the active coins (the fetch filters
on is_active); and inserts an order row whose price is the entered price for
a limit order and null for a market order. The filled amount and the open
status are the database column defaults. No balance is read, checked or
locked. -/
def handleTrade (st : State) (userId : Nat) (selectedPair : String)
    (orderType : OrderKind) (amount : Option ℚ) (price : Option ℚ)
    (side : Side) : Except String State :=
  match amount with
  | none => Except.error ("Please fill in all required fields")
  | some amt =>
    if orderType = OrderKind.limit ∧ price = none then
      Except.error ("Please fill in all required fields")
    else
      let activeCoins := st.coins.filter (fun c => c.isActive)
      let baseSym := (splitSlash selectedPair).getD 0 ("")
      let quoteSym := (splitSlash selectedPair).getD 1 ("")
      match activeCoins.find? (fun c => c.symbol == baseSym),
            activeCoins.find? (fun c => c.symbol == quoteSym) with
      | some base, some quote =>
        Except.ok { st with orders := st.orders ++ [{
          userId := userId, baseCoinId := base.id, quoteCoinId := quote.id,
          type := orderType, side := side, amount := amt,
          price := if orderType = OrderKind.limit then price else none,
          filledAmount := 0, status := OrderStatus.opn }] }
      | _, _ => Except.error ("Invalid trading pair")

/-- Shape of a fetched balance row on the Assets page: the balance columns
joined with the coin price. -/
structure BalanceView where
  id : Nat
  balance : ℚ
  lockedBalance : ℚ
  coinPrice : ℚ
deriving DecidableEq, Repr

/-- The totalValue reduce of the Assets page: sums balance times coin price
over the fetched balance rows, starting from zero. -/
def totalValue (balances : List BalanceView) : ℚ :=
  balances.foldl (fun sum b => sum + b.balance * b.coinPrice) 0

/-- Models the JavaScript toFixed method with two digits on the rational
embedding of a number: round half away from zero toward the larger candidate
(the toFixed tie rule), then render with exactly two digits after the point.
Used only on non-negative values in this development. -/
def toFixed2 (q : ℚ) : String :=
  let n : ℤ := ⌊q * 100 + 1 / 2⌋
  let whole := n / 100
  let frac := (n % 100).toNat
  toString whole ++ "." ++ (if frac < 10 then ("0") else ("")) ++ toString frac

/-- The formatMarketCap helper of the Market page. -/
def formatMarketCap (value : ℚ) : String :=
  if 1000000000 ≤ value then "$" ++ toFixed2 (value / 1000000000) ++ "B"
  else if 1000000 ≤ value then "$" ++ toFixed2 (value / 1000000) ++ "M"
  else if 1000 ≤ value then "$" ++ toFixed2 (value / 1000) ++ "K"
  else "$" ++ toFixed2 value

/-- The BTC row seeded by the migration (price 43000, active). -/
def btcCoin : Coin :=
  { id := 1, symbol := "BTC", name := "Bitcoin", price := 43000, isActive := true }

/-- The USDT row seeded by the migration (price 1, active). -/
def usdtCoin : Coin :=
  { id := 2, symbol := "USDT", name := "Tether", price := 1, isActive := true }

/-- The MOON row seeded by the migration (price 0.001, active). -/
def moonCoin : Coin :=
  { id := 3, symbol := "MOON", name := "Moon Token", price := 1 / 1000, isActive := true }

/-- A state where user 7 holds zero available and zero locked BTC. -/
def zeroBtcState : State :=
  { coins := [btcCoin, usdtCoin, moonCoin],
    balances := [{ userId := 7, coinId := 1, balance := 0, lockedBalance := 0 }],
    transactions := [],
    orders := [] }

/-- The pending withdrawal transaction handleWithdraw inserts for user 7. -/
def c1Tx : Txn :=
  { id := 10, userId := 7, coinId := 1, type := TxType.withdrawal,
    amount := 100, status := TxStatus.pending,
    walletAddress := some ("wallet-x"),
    adminApprovedBy := none, adminApprovedAt := none }

/-- A state with a pending deposit of 5 BTC for user 7, whose available BTC
balance is zero. -/
def pendingDepositState : State :=
  { coins := [btcCoin, usdtCoin, moonCoin],
    balances := [{ userId := 7, coinId := 1, balance := 0, lockedBalance := 0 }],
    transactions := [{
      id := 1, userId := 7, coinId := 1, type := TxType.deposit,
      amount := 5, status := TxStatus.pending, walletAddress := some ("addr"),
      adminApprovedBy := none, adminApprovedAt := none }],
    orders := [] }

/-- A state with a pending withdrawal of 100 BTC for user 7, whose BTC
balance row shows 0 available and 100 locked. -/
def pendingWithdrawalState : State :=
  { coins := [btcCoin, usdtCoin, moonCoin],
    balances := [{ userId := 7, coinId := 1, balance := 0, lockedBalance := 100 }],
    transactions := [{
      id := 2, userId := 7, coinId := 1, type := TxType.withdrawal,
      amount := 100, status := TxStatus.pending, walletAddress := some ("w"),
      adminApprovedBy := none, adminApprovedAt := none }],
    orders := [] }

/-- A state where user 7 holds zero available and zero locked USDT. -/
def tradeState : State :=
  { coins := [btcCoin, usdtCoin, moonCoin],
    balances := [{ userId := 7, coinId := 2, balance := 0, lockedBalance := 0 }],
    transactions := [],
    orders := [] }

/-- A state with the three seeded coins and no rows elsewhere. -/
def moonState : State :=
  { coins := [btcCoin, usdtCoin, moonCoin],
    balances := [], transactions := [], orders := [] }

/-- The state produced by a successful market buy of 2 BTC on BTC/USDT. -/
def tradeResultState : State :=
  { tradeState with orders := [{
      userId := 7, baseCoinId := 1, quoteCoinId := 2,
      type := OrderKind.market, side := Side.buy, amount := 2,
      price := none, filledAmount := 0, status := OrderStatus.opn }] }

/-- Mapping a function that does not change the value of the search predicate
commutes with find?. -/
theorem find?_map_pres {α : Type} (f : α → α) (p : α → Bool) (l : List α)
    (hf : ∀ x, p (f x) = p x) :
    (l.map f).find? p = (l.find? p).map f := by
  induction l with
  | nil => rfl
  | cons a t ih =>
    cases h : p a with
    | true => simp [List.find?_cons, hf a, h]
    | false => simp [List.find?_cons, hf a, h, ih]

/-- A left fold that only adds contributions equals the start value plus the
sum of the mapped list. -/
theorem foldl_add_sum {α : Type} (v : α → ℚ) (l : List α) (s : ℚ) :
    l.foldl (fun acc b => acc + v b) s = s + (l.map v).sum := by
  induction l generalizing s with
  | nil => simp
  | cons a t ih => simp [ih]; ring

/-- C1: the claim fails on the code. User 7 has 0 BTC available, yet the
withdrawal request for 100 BTC does not fail with InsufficientFunds: the
handler appends a pending withdrawal transaction of amount 100 and the
balances table is untouched, so nothing moves from available to locked. -/
theorem c1_withdraw_ignores_available_balance :
    handleWithdraw zeroBtcState 7 (some 100) ("wallet-x") ("BTC") 10 =
      Except.ok { zeroBtcState with transactions := [c1Tx] }
    ∧ zeroBtcState.balances =
        [{ userId := 7, coinId := 1, balance := 0, lockedBalance := 0 }]
    ∧ c1Tx.status = TxStatus.pending ∧ c1Tx.amount = 100 :=
  ⟨rfl, rfl, rfl, rfl⟩

/-- C2: the claim fails on the code. approveTransaction only rewrites the
transaction row. Approving the pending 5 BTC deposit of user 7 sets the
status to completed and records the admin and the time, but the available
balance of user 7 stays 0 instead of being credited by 5; approving the
pending 100 BTC withdrawal leaves the locked balance at 100 instead of
debiting it; rejecting that withdrawal also leaves 0 available and 100
locked instead of unlocking the amount. -/
theorem c2_approve_changes_no_balances :
    approveTransaction pendingDepositState 99 1 true 1000 =
      { pendingDepositState with transactions := [{
          id := 1, userId := 7, coinId := 1, type := TxType.deposit,
          amount := 5, status := TxStatus.completed,
          walletAddress := some ("addr"),
          adminApprovedBy := some 99, adminApprovedAt := some 1000 }] }
    ∧ (approveTransaction pendingDepositState 99 1 true 1000).balances =
        [{ userId := 7, coinId := 1, balance := 0, lockedBalance := 0 }]
    ∧ (approveTransaction pendingWithdrawalState 99 2 true 1000).balances =
        [{ userId := 7, coinId := 1, balance := 0, lockedBalance := 100 }]
    ∧ (approveTransaction pendingWithdrawalState 99 2 false 1000).balances =
        [{ userId := 7, coinId := 1, balance := 0, lockedBalance := 100 }] :=
  ⟨rfl, rfl, rfl, rfl⟩

/-- C3: the claim fails on the code. The first approval finalizes transaction
1 as completed, yet a second call with decision reject does not fail with
AlreadyFinalized: it succeeds and overwrites the finalized transaction,
flipping the status to rejected and replacing the recorded admin and time. -/
theorem c3_second_approval_overwrites_finalized :
    (approveTransaction pendingDepositState 99 1 true 1000).transactions =
      [{ id := 1, userId := 7, coinId := 1, type := TxType.deposit,
         amount := 5, status := TxStatus.completed,
         walletAddress := some ("addr"),
         adminApprovedBy := some 99, adminApprovedAt := some 1000 }]
    ∧ approveTransaction
        (approveTransaction pendingDepositState 99 1 true 1000) 98 1 false 2000 =
      { pendingDepositState with transactions := [{
          id := 1, userId := 7, coinId := 1, type := TxType.deposit,
          amount := 5, status := TxStatus.rejected,
          walletAddress := some ("addr"),
          adminApprovedBy := some 98, adminApprovedAt := some 2000 }] } :=
  ⟨rfl, rfl⟩

/-- C4: the claim fails on the code. User 7 has 0 USDT available, yet the
market buy of 1 BTC on the BTC/USDT pair succeeds: an open order is inserted
and the balances table is untouched, so no quote funds are locked and no
InsufficientFunds failure occurs. -/
theorem c4_order_locks_no_funds :
    handleTrade tradeState 7 ("BTC/USDT") OrderKind.market (some 1) none Side.buy =
      Except.ok { tradeState with orders := [{
        userId := 7, baseCoinId := 1, quoteCoinId := 2,
        type := OrderKind.market, side := Side.buy, amount := 1,
        price := none, filledAmount := 0, status := OrderStatus.opn }] }
    ∧ tradeState.balances =
        [{ userId := 7, coinId := 2, balance := 0, lockedBalance := 0 }] :=
  ⟨rfl, rfl⟩

/-- C5: the claim fails on the code. The handler only rejects an empty amount
field: an entered amount of minus one passes the guard and an open order of
amount minus one is inserted, with no InvalidAmount failure. -/
theorem c5_nonpositive_amount_accepted :
    handleTrade tradeState 7 ("BTC/USDT") OrderKind.market (some (-1)) none Side.buy =
      Except.ok { tradeState with orders := [{
        userId := 7, baseCoinId := 1, quoteCoinId := 2,
        type := OrderKind.market, side := Side.buy, amount := -1,
        price := none, filledAmount := 0, status := OrderStatus.opn }] } := rfl

/-- C6: whenever the MOON coin is present, the percentage adjustment with an
entered percentage pct succeeds and stores, as the MOON price, the old price
multiplied by one plus pct over one hundred; no other coin row changes. -/
theorem c6_percentage_formula (st : State) (pct : ℚ) (c : Coin)
    (h : st.coins.find? (fun k => k.symbol == "MOON") = some c) :
    ∃ st', updateMoonPriceByPercentage st (some pct) = Except.ok st'
      ∧ st'.coins = st.coins.map (fun k =>
          if k.symbol = "MOON" then { k with price := c.price * (1 + pct / 100) } else k)
      ∧ st'.coins.find? (fun k => k.symbol == "MOON") =
          some { c with price := c.price * (1 + pct / 100) } := by
  have hsym : c.symbol = "MOON" := by
    have h2 := List.find?_some h
    simpa using h2
  refine ⟨{ st with coins := st.coins.map (fun k =>
      if k.symbol = "MOON" then { k with price := c.price * (1 + pct / 100) } else k) },
    ?_, rfl, ?_⟩
  · simp [updateMoonPriceByPercentage, h]
  · rw [find?_map_pres]
    · rw [h]
      simp [hsym]
    · intro x
      by_cases hx : x.symbol = "MOON" <;> simp [hx]

/-- Witness for C6 at the seeded MOON price and a plus five percent change. -/
theorem c6_witness :
    ∃ st', updateMoonPriceByPercentage moonState (some 5) = Except.ok st'
      ∧ st'.coins = moonState.coins.map (fun k =>
          if k.symbol = "MOON" then { k with price := moonCoin.price * (1 + 5 / 100) } else k)
      ∧ st'.coins.find? (fun k => k.symbol == "MOON") =
          some { moonCoin with price := moonCoin.price * (1 + 5 / 100) } :=
  c6_percentage_formula moonState 5 moonCoin rfl

/-- C7: a deposit request with an entered amount for a known coin appends
exactly one transaction, created in the pending status, and every other
table is untouched; in particular every balance row, available and locked,
is exactly as before. -/
theorem c7_deposit_pending_no_balance_change (st : State) (u : Nat) (amt : ℚ)
    (sym : String) (nextId : Nat) (c : Coin)
    (h : st.coins.find? (fun k => k.symbol == sym) = some c) :
    handleDeposit st u (some amt) sym nextId =
      Except.ok { st with transactions := st.transactions ++ [{
        id := nextId, userId := u, coinId := c.id,
        type := TxType.deposit, amount := amt, status := TxStatus.pending,
        walletAddress := walletAddresses sym,
        adminApprovedBy := none, adminApprovedAt := none }] }
    ∧ ∀ st2, handleDeposit st u (some amt) sym nextId = Except.ok st2 →
        st2.balances = st.balances := by
  have hmain : handleDeposit st u (some amt) sym nextId =
      Except.ok { st with transactions := st.transactions ++ [{
        id := nextId, userId := u, coinId := c.id,
        type := TxType.deposit, amount := amt, status := TxStatus.pending,
        walletAddress := walletAddresses sym,
        adminApprovedBy := none, adminApprovedAt := none }] } := by
    simp [handleDeposit, h]
  refine ⟨hmain, fun st2 h2 => ?_⟩
  rw [hmain] at h2
  injection h2 with h3
  subst h3
  rfl

/-- Witness for C7: a deposit of 2 BTC by user 7 on the seeded coins. -/
theorem c7_witness :
    handleDeposit moonState 7 (some 2) ("BTC") 11 =
      Except.ok { moonState with transactions := moonState.transactions ++ [{
        id := 11, userId := 7, coinId := btcCoin.id,
        type := TxType.deposit, amount := 2, status := TxStatus.pending,
        walletAddress := walletAddresses ("BTC"),
        adminApprovedBy := none, adminApprovedAt := none }] }
    ∧ ∀ st2, handleDeposit moonState 7 (some 2) ("BTC") 11 = Except.ok st2 →
        st2.balances = moonState.balances :=
  c7_deposit_pending_no_balance_change moonState 7 2 ("BTC") 11 btcCoin rfl

/-- C8: every order the trade handler stores carries a price exactly when its
kind is limit: a successful call appends one order whose kind is the selected
kind, whose price is the entered limit price when the kind is limit, and
whose price is null when the kind is market, whatever was typed in the price
field. -/
theorem c8_limit_price_iff (st : State) (u : Nat) (pair : String)
    (kind : OrderKind) (amt pr : Option ℚ) (sd : Side) (st' : State)
    (h : handleTrade st u pair kind amt pr sd = Except.ok st') :
    ∃ o : OrderRow, st'.orders = st.orders ++ [o]
      ∧ o.type = kind
      ∧ (o.price.isSome ↔ o.type = OrderKind.limit)
      ∧ (kind = OrderKind.limit → o.price = pr)
      ∧ (kind = OrderKind.market → o.price = none) := by
  cases amt with
  | none => simp [handleTrade] at h
  | some a =>
    simp only [handleTrade] at h
    by_cases hg : kind = OrderKind.limit ∧ pr = none
    · rw [if_pos hg] at h; cases h
    · rw [if_neg hg] at h
      split at h
      · injection h with h'
        subst h'
        refine ⟨_, rfl, rfl, ?_, ?_, ?_⟩
        · cases kind with
          | market => simp
          | limit =>
            cases pr with
            | none => exact absurd ⟨rfl, rfl⟩ hg
            | some q => simp
        · intro hk; subst hk
          cases pr with
          | none => exact absurd ⟨rfl, rfl⟩ hg
          | some q => simp
        · intro hk; subst hk; simp
      · cases h

/-- Witness for C8: a market buy of 2 BTC on BTC/USDT stores a null price. -/
theorem c8_witness :
    ∃ o : OrderRow, tradeResultState.orders = tradeState.orders ++ [o]
      ∧ o.type = OrderKind.market
      ∧ (o.price.isSome ↔ o.type = OrderKind.limit)
      ∧ (OrderKind.market = OrderKind.limit → o.price = none)
      ∧ (OrderKind.market = OrderKind.market → o.price = none) :=
  c8_limit_price_iff tradeState 7 ("BTC/USDT") OrderKind.market (some 2) none
    Side.buy tradeResultState rfl

/-- C9: the total portfolio value is the sum over the fetched balance rows of
the available balance times the coin price, and it is invariant under any
change of the locked balances, which therefore contribute nothing. -/
theorem c9_total_value_sum (bs : List BalanceView) (f : BalanceView → ℚ) :
    totalValue bs = (bs.map (fun b => b.balance * b.coinPrice)).sum
    ∧ totalValue (bs.map (fun b => { b with lockedBalance := f b })) = totalValue bs := by
  have key := fun (l : List BalanceView) =>
    foldl_add_sum (fun b : BalanceView => b.balance * b.coinPrice) l 0
  constructor
  · simpa using key bs
  · unfold totalValue
    rw [key, key, List.map_map]
    have hcomp : ((fun b : BalanceView => b.balance * b.coinPrice) ∘ fun b =>
        { b with lockedBalance := f b }) = fun b : BalanceView => b.balance * b.coinPrice :=
      funext (fun b => rfl)
    rw [hcomp]

/-- C10: formatMarketCap partitions the non-negative inputs at the three
fixed thresholds, dividing by a billion with suffix B, by a million with
suffix M, by a thousand with suffix K, and otherwise rendering the plain
value, each with a leading dollar sign and the two digit rendering. -/
theorem c10_format_market_cap_partition (v : ℚ) (h : 0 ≤ v) :
    ((1000000000 : ℚ) ≤ v → formatMarketCap v = "$" ++ toFixed2 (v / 1000000000) ++ "B")
    ∧ ((1000000 : ℚ) ≤ v ∧ v < 1000000000 → formatMarketCap v = "$" ++ toFixed2 (v / 1000000) ++ "M")
    ∧ ((1000 : ℚ) ≤ v ∧ v < 1000000 → formatMarketCap v = "$" ++ toFixed2 (v / 1000) ++ "K")
    ∧ (v < 1000 → formatMarketCap v = "$" ++ toFixed2 v) := by
  unfold formatMarketCap
  refine ⟨fun hv => ?_, fun hv => ?_, fun hv => ?_, fun hv => ?_⟩
  · rw [if_pos hv]
  · obtain ⟨hv1, hv2⟩ := hv
    rw [if_neg (by linarith), if_pos hv1]
  · obtain ⟨hv1, hv2⟩ := hv
    rw [if_neg (by linarith), if_neg (by linarith), if_pos hv1]
  · rw [if_neg (by linarith), if_neg (by linarith), if_neg (by linarith)]

/-- Witness for C10 at two and a half billion, which falls in the B branch. -/
theorem c10_witness :
    (0 : ℚ) ≤ 2500000000
    ∧ (((1000000000 : ℚ) ≤ 2500000000 →
          formatMarketCap 2500000000 = "$" ++ toFixed2 ((2500000000 : ℚ) / 1000000000) ++ "B")
        ∧ ((1000000 : ℚ) ≤ 2500000000 ∧ (2500000000 : ℚ) < 1000000000 →
          formatMarketCap 2500000000 = "$" ++ toFixed2 ((2500000000 : ℚ) / 1000000) ++ "M")
        ∧ ((1000 : ℚ) ≤ 2500000000 ∧ (2500000000 : ℚ) < 1000000 →
          formatMarketCap 2500000000 = "$" ++ toFixed2 ((2500000000 : ℚ) / 1000) ++ "K")
        ∧ ((2500000000 : ℚ) < 1000 →
          formatMarketCap 2500000000 = "$" ++ toFixed2 (2500000000 : ℚ))) :=
  ⟨by norm_num, c10_format_market_cap_partition 2500000000 (by norm_num)⟩

end CryptoDash
